import Mathlib

/-!
# lab0: a UDP client and server (src/lab0/src/client.c, server.c, include.h)

A shallow embedding of the two `main` functions and of the two helpers of
`include.h`. Each process is a function from its inputs (argument vector,
initial `errno`, initial buffer contents) and from the answers of the
operating system to the calls it makes, to the list of calls and writes it
performs and the way it ends.

Conventions.
* A byte is a `Nat` below 256; a C string is the list of its bytes, the
  terminator being the end of the list (`deref` reads `0` there).
* Machine integers are `Int`/`Nat` with explicit wrap-around: `int` is 32 bits,
  `long`, `ssize_t` and `size_t` have `Platform.longBits` bits.
* `errno` is threaded explicitly. A call that fails stores its error number, a
  call that succeeds leaves `errno` as it was.
-/

namespace Lab0

/-! ## Platform -/

/-- The parameters of the C implementation that the sources leave to the
headers and the compiler: the width of `long` (also of `ssize_t`/`size_t`),
the byte order, and three error numbers of `errno.h`. -/
structure Platform where
  longBits : Nat
  littleEndian : Bool
  EAGAIN : Nat
  EWOULDBLOCK : Nat
  ERANGE : Nat
deriving DecidableEq, Repr

/-- Linux on x86-64: LP64, little-endian, `EAGAIN = EWOULDBLOCK = 11`,
`ERANGE = 34`. -/
def linux_x86_64 : Platform :=
  { longBits := 64, littleEndian := true, EAGAIN := 11, EWOULDBLOCK := 11, ERANGE := 34 }

/-- `EXIT_FAILURE` of `stdlib.h`. -/
def EXIT_FAILURE : Nat := 1

/-- `AF_INET` of `sys/socket.h`. -/
def AF_INET : Nat := 2

/-- The status a parent observes for `exit(code)`: the low eight bits. -/
def exitStatus (code : Nat) : Nat := code % 256

/-! ## C strings and conversions -/

/-- The bytes of a string literal or of an argument, without the terminator. -/
def cstr (s : String) : List Nat := s.toList.map Char.toNat

/-- The byte a `char *` points at: the head of the remaining bytes, or the
terminator when none remain. -/
def deref (p : List Nat) : Nat := p.headD 0

/-- `strlen`: the number of bytes before the first zero byte. -/
def strlen (s : List Nat) : Nat := (s.takeWhile (fun b => b != 0)).length

/-- `isspace` in the C locale: space, and `\t \n \v \f \r` (9 to 13). -/
def isspace (c : Nat) : Bool := c == 32 || (9 ≤ c && c ≤ 13)

/-- `isdigit`: the bytes 48 to 57. -/
def isdigit (c : Nat) : Bool := 48 ≤ c && c ≤ 57

/-- The value of a run of decimal digits, most significant first. -/
def digitsValue (ds : List Nat) : Nat := ds.foldl (fun a c => 10 * a + (c - 48)) 0

/-- What `strtol` hands back: the value, the bytes `endptr` points at, and
whether the conversion overflowed (in which case it stores `ERANGE`). -/
structure StrtolResult where
  value : Int
  endptr : List Nat
  overflow : Bool
deriving DecidableEq, Repr

/-- `strtol(nptr, &endptr, 10)` for a `long` of `w` bits: skip white space,
take an optional sign, then the longest run of digits. Without a digit the
value is 0 and `endptr` is `nptr`. A value outside the range of `long` is
clamped to `LONG_MAX`/`LONG_MIN` and flagged. -/
def strtol (w : Nat) (nptr : List Nat) : StrtolResult :=
  let s1 := nptr.dropWhile isspace
  let neg := deref s1 == 45
  let s2 := if deref s1 == 45 || deref s1 == 43 then s1.drop 1 else s1
  let ds := s2.takeWhile isdigit
  let rest := s2.dropWhile isdigit
  if ds.isEmpty then { value := 0, endptr := nptr, overflow := false }
  else
    let mag := digitsValue ds
    if neg then
      if mag > 2 ^ (w - 1) then { value := -(2 ^ (w - 1) : Int), endptr := rest, overflow := true }
      else { value := -(mag : Int), endptr := rest, overflow := false }
    else
      if mag > 2 ^ (w - 1) - 1 then
        { value := (2 ^ (w - 1) : Int) - 1, endptr := rest, overflow := true }
      else { value := (mag : Int), endptr := rest, overflow := false }

/-- Conversion to `int` (32 bits, two's complement, wrapping). -/
def toInt32 (x : Int) : Int := (x + 2 ^ 31) % 2 ^ 32 - 2 ^ 31

/-- Conversion to `unsigned short` (16 bits, wrapping). -/
def toUInt16 (x : Int) : Nat := (x % 65536).toNat

/-- Conversion of an `ssize_t` to `size_t` (both `w` bits), as done by the
usual arithmetic conversions when the two are compared. -/
def toSizeT (w : Nat) (x : Int) : Nat := (x % 2 ^ w).toNat

/-- `htons`: the 16-bit value whose bytes in memory are those of `x` in network
order (most significant first). -/
def htons (P : Platform) (x : Nat) : Nat :=
  if P.littleEndian then (x % 256) * 256 + (x / 256) % 256 else x % 65536

/-- `ntohs`: the same byte swap in the other direction. -/
def ntohs (P : Platform) (x : Nat) : Nat :=
  if P.littleEndian then (x % 256) * 256 + (x / 256) % 256 else x % 65536

/-- The two bytes a 16-bit field of value `x` occupies in memory, in address
order. -/
def fieldBytes16 (P : Platform) (x : Nat) : List Nat :=
  if P.littleEndian then [x % 256, (x / 256) % 256] else [(x / 256) % 256, x % 256]

/-! ## printf conversions -/

/-- The decimal digits of a natural number as bytes. -/
def decimal (n : Nat) : List Nat := (Nat.toDigits 10 n).map Char.toNat

/-- Conversion `%d`. -/
def fmt_d (x : Int) : List Nat :=
  if x < 0 then 45 :: decimal (-x).toNat else decimal x.toNat

/-- Conversion `%s`: the bytes up to the first zero byte. -/
def fmt_s (s : List Nat) : List Nat := s.takeWhile (fun b => b != 0)

/-- Conversion `%.*s` with precision `n`: at most `n` bytes, and none from the
first zero byte on; a negative precision counts as absent. -/
def fmt_prec_s (n : Int) (s : List Nat) : List Nat :=
  if n < 0 then fmt_s s else fmt_s (s.take n.toNat)

/-! ## Calls, answers of the operating system, runs -/

/-- A `struct sockaddr_in`: the three fields as the host reads them. -/
structure sockaddr_in where
  sin_family : Nat
  sin_port : Nat
  sin_addr : Nat
deriving DecidableEq, Repr

/-- What a process does that is visible from outside, in program order. -/
inductive Event where
  | socket
  | setsockopt (fd : Int) (optname : String) (optval : List Nat)
  | inet_pton (src : List Nat)
  | bind (fd : Int) (addr : sockaddr_in)
  | sendto (fd : Int) (payload : List Nat) (dest : sockaddr_in) (destlen : Nat)
  | recvfrom (fd : Int) (len : Nat)
  | inet_ntop (addr : Nat)
  | sleep (seconds : Nat)
  | stdout (bytes : List Nat)
  | perror (label : String) (errno : Nat)
deriving DecidableEq, Repr

/-- Whether the event is a `sendto`. -/
def Event.isSendto : Event → Bool
  | .sendto _ _ _ _ => true
  | _ => false

/-- The answer to a system call: its return value and the error number it
stores when it fails. -/
structure SysRet where
  ret : Int
  err : Nat
deriving DecidableEq, Repr

/-- The answer of `inet_pton`: its return value and the address it stores on
success. -/
structure PtonRet where
  ret : Int
  addr : Nat
deriving DecidableEq, Repr

/-- The answer of `recvfrom`: return value, error number on failure, the bytes
of the datagram, and the source address and its length as stored through the
two out-parameters. -/
structure RecvRet where
  ret : Int
  err : Nat
  data : List Nat
  src : sockaddr_in
  srclen : Nat
deriving DecidableEq, Repr

/-- How a run stands when the answers are used up: the process has ended with
the given argument to `exit` (or value returned from `main`), or it is inside a
call that has not returned. -/
inductive Outcome where
  | exited (code : Nat)
  | blocked
deriving DecidableEq, Repr

/-- A run: the events so far and the outcome. -/
structure Run where
  trace : List Event
  outcome : Outcome
deriving DecidableEq, Repr

/-- Everything written to standard output, in order. -/
def stdoutOf : List Event → List Nat
  | [] => []
  | .stdout b :: es => b ++ stdoutOf es
  | _ :: es => stdoutOf es

/-- The payloads handed to `sendto`, in order. -/
def sentPayloads : List Event → List (List Nat)
  | [] => []
  | .sendto _ p _ _ :: es => p :: sentPayloads es
  | _ :: es => sentPayloads es

/-- The buffer after `recvfrom` returned `r` into a buffer of `len` bytes: the
datagram (cut to `len`) over the old contents; unchanged on failure. -/
def recv_write (buf : List Nat) (len : Nat) (r : RecvRet) : List Nat :=
  if r.ret = -1 then buf
  else r.data.take len ++ buf.drop (min r.data.length len)

/-! ## include.h -/

/-- The statement `ERROR(text)` reached after the events `tr`: print
`Error: ` and the argument as written in the source (quotes included), then
`exit(EXIT_FAILURE)`. -/
def ERROR (tr : List Event) (text : String) : Run :=
  { trace := tr ++ [.stdout (cstr "Error: " ++ [34] ++ cstr text ++ [34, 10])],
    outcome := .exited EXIT_FAILURE }

/-- The failure branch of `try(expr)`, taken when the value is `-1`:
`perror(#expr)` and `exit(errno)`. -/
def try_fail (tr : List Event) (label : String) (errno : Nat) : Run :=
  { trace := tr ++ [.perror label errno], outcome := .exited errno }

/-! ## client.c -/

/-- The answers the client gets, call by call. -/
structure ClientEnv where
  socket : SysRet
  setsockopt : SysRet
  inet_pton : PtonRet
  sendto : SysRet
  recvs : List RecvRet
deriving DecidableEq, Repr

/-- The receive loop of the client (client.c lines 47 to 57): one answer of
`recvfrom` per turn. -/
def client_recv_loop (P : Platform) (sockfd : Int) :
    List Event → Nat → List Nat → List RecvRet → Run
  | tr, _, _, [] => { trace := tr ++ [.recvfrom sockfd 65535], outcome := .blocked }
  | tr, errno, buf, r :: rs =>
    let tr1 := tr ++ [.recvfrom sockfd 65535]
    let errno1 := if r.ret = -1 then r.err else errno
    let buf1 := recv_write buf 65535 r
    if r.ret = -1 then
      try_fail tr1
        "recvfrom(sockfd, buf, sizeof(buf), 0, (struct sockaddr *)&serveraddress, &serveraddrlen)"
        errno1
    else
      let n := toInt32 r.ret
      if n < 0 then
        if errno1 ≠ P.EAGAIN ∧ errno1 ≠ P.EWOULDBLOCK then ERROR tr1 "Receive failed"
        else client_recv_loop P sockfd (tr1 ++ [.sleep 1]) errno1 buf1 rs
      else
        { trace := tr1 ++ [.stdout (cstr "Server: " ++ fmt_prec_s n buf1 ++ [10])],
          outcome := .exited 0 }

/-- The function `main` of client.c. `argv` is the argument vector (program
name first), `errno0` the value of `errno` at entry, `buf0` the indeterminate
initial contents of `buf`. -/
def client_main (P : Platform) (argv : List String) (errno0 : Nat) (buf0 : List Nat)
    (env : ClientEnv) : Run :=
  if argv.length ≠ 3 then ERROR [] "example: client <ip> <port>"
  else
    let r := strtol P.longBits (cstr (argv.getD 2 ""))
    let errno1 := if r.overflow then P.ERANGE else errno0
    let port := toInt32 r.value
    if errno1 ≠ 0 ∨ deref r.endptr ≠ 0 ∨ port < 1 ∨ port > 65535 then
      ERROR [] "Invalid port number (must be between 1 and 65535)"
    else
      let tr1 := [Event.socket]
      if env.socket.ret = -1 then
        try_fail tr1 "socket(AF_INET, SOCK_DGRAM, 0)" env.socket.err
      else
        let sockfd := env.socket.ret
        let tr2 := tr1 ++ [.setsockopt sockfd "SO_RCVTIMEO" [5, 0]]
        if env.setsockopt.ret = -1 then
          try_fail tr2 "setsockopt(sockfd, SOL_SOCKET, SO_RCVTIMEO, &timeout, sizeof(timeout))"
            env.setsockopt.err
        else
          let tr3 := tr2 ++ [.inet_pton (cstr (argv.getD 1 ""))]
          if env.inet_pton.ret ≠ 1 then ERROR tr3 "IP wrong format"
          else
            let serveraddress : sockaddr_in :=
              { sin_family := AF_INET, sin_port := htons P (toUInt16 port),
                sin_addr := env.inet_pton.addr }
            let serveraddrlen := 16
            let msg := cstr "Hello, World!" ++ [0]
            let tr4 := tr3 ++ [.sendto sockfd (msg.take (strlen msg)) serveraddress serveraddrlen]
            if toSizeT P.longBits env.sendto.ret ≠ strlen msg then
              ERROR tr4 "Failed to send message to server"
            else
              client_recv_loop P sockfd tr4 errno1 buf0 env.recvs

/-! ## server.c -/

/-- The answers the server gets before it enters its loop. -/
structure ServerEnv where
  socket : SysRet
  setsockopt : SysRet
  inet_pton : PtonRet
  bind : SysRet
deriving DecidableEq, Repr

/-- The answers the server gets during one turn of its loop. `inet_ntop` is
`none` for a null result, else the text it stored in `ipstr`. -/
structure IterEnv where
  recv : RecvRet
  inet_ntop : Option (List Nat)
  sendto : SysRet
deriving DecidableEq, Repr

/-- The variables of the server that live across turns of the loop. -/
structure ServerState where
  sockfd : Int
  buf : List Nat
deriving DecidableEq, Repr

/-- Where the server stands: before its set-up, at the head of its loop
(inside `recvfrom` on the socket of the state), or ended. -/
inductive ServerPhase where
  | setup
  | receiving (st : ServerState)
  | exited (code : Nat)
deriving DecidableEq, Repr

/-- A run of the server: the events so far and the phase reached. -/
structure ServerRun where
  trace : List Event
  phase : ServerPhase
deriving DecidableEq, Repr

/-- The server run that ends with `ERROR(text)`. -/
def server_ERROR (tr : List Event) (text : String) : ServerRun :=
  { trace := (ERROR tr text).trace, phase := .exited EXIT_FAILURE }

/-- The server run that ends in the failure branch of `try`. -/
def server_try_fail (tr : List Event) (label : String) (errno : Nat) : ServerRun :=
  { trace := (try_fail tr label errno).trace, phase := .exited errno }

/-- The lines of `main` of server.c before the loop (lines 11 to 38). -/
def server_setup (P : Platform) (argv : List String) (errno0 : Nat) (buf0 : List Nat)
    (env : ServerEnv) : ServerRun :=
  if argv.length ≠ 3 then server_ERROR [] "example: server <ip> <port>"
  else
    let r := strtol P.longBits (cstr (argv.getD 2 ""))
    let errno1 := if r.overflow then P.ERANGE else errno0
    let port := toInt32 r.value
    if errno1 ≠ 0 ∨ deref r.endptr ≠ 0 ∨ port < 1 ∨ port > 65535 then
      server_ERROR [] "Invalid port number (must be 1 - 65535)"
    else
      let tr1 := [Event.socket]
      if env.socket.ret = -1 then
        server_try_fail tr1 "socket(AF_INET, SOCK_DGRAM, 0)" env.socket.err
      else
        let sockfd := env.socket.ret
        let tr2 := tr1 ++ [.setsockopt sockfd "SO_REUSEADDR" [1]]
        if env.setsockopt.ret = -1 then
          server_try_fail tr2
            "setsockopt(sockfd, SOL_SOCKET, SO_REUSEADDR, &optval, sizeof(optval))"
            env.setsockopt.err
        else
          let tr3 := tr2 ++ [.inet_pton (cstr (argv.getD 1 ""))]
          if env.inet_pton.ret ≠ 1 then server_ERROR tr3 "Invalid ip address given"
          else
            let serveraddress : sockaddr_in :=
              { sin_family := AF_INET, sin_port := htons P (toUInt16 port),
                sin_addr := env.inet_pton.addr }
            let tr4 := tr3 ++ [.bind sockfd serveraddress]
            if env.bind.ret = -1 then
              server_try_fail tr4
                "bind(sockfd, (struct sockaddr *)&serveraddress, sizeof(serveraddress))"
                env.bind.err
            else
              { trace := tr4 ++ [.stdout (cstr "bound on port: " ++ fmt_d port ++ [10])],
                phase := .receiving { sockfd := sockfd, buf := buf0 } }

/-- One turn of the loop of server.c (lines 41 to 61), from the call of
`recvfrom` to the test after `sendto`. -/
def server_iter (P : Platform) (st : ServerState) (it : IterEnv) : ServerRun :=
  let tr1 := [Event.recvfrom st.sockfd 65535]
  if it.recv.ret = -1 then
    server_try_fail tr1
      "recvfrom(sockfd, buf, sizeof(buf), 0, (struct sockaddr *)&clientaddr, &clientlen)"
      it.recv.err
  else
    let n := toInt32 it.recv.ret
    let buf1 := recv_write st.buf 65535 it.recv
    let clientaddr := it.recv.src
    let clientlen := it.recv.srclen
    let tr2 := tr1 ++ [.inet_ntop clientaddr.sin_addr]
    match it.inet_ntop with
    | none => server_ERROR tr2 "Unable to translate client ip address into human format"
    | some ipstr =>
      let line := cstr "recv: " ++ fmt_prec_s n buf1 ++ cstr " from " ++ fmt_s ipstr
        ++ [58] ++ fmt_d (clientaddr.sin_port : Int) ++ [10]
      let tr3 := tr2 ++ [.stdout line]
      let msg := cstr "Welcome to CSE5462." ++ [0]
      let tr4 := tr3 ++ [.sendto st.sockfd (msg.take (strlen msg)) clientaddr clientlen]
      if toSizeT P.longBits it.sendto.ret ≠ strlen msg then
        server_ERROR tr4 "Failed to send respose to client"
      else
        { trace := tr4, phase := .receiving { sockfd := st.sockfd, buf := buf1 } }

/-- The loop of server.c: one turn per answer; with no answer left the server
is inside `recvfrom`. -/
def server_loop (P : Platform) : ServerState → List IterEnv → ServerRun
  | st, [] => { trace := [], phase := .receiving st }
  | st, it :: its =>
    match (server_iter P st it).phase with
    | .receiving st1 =>
      { trace := (server_iter P st it).trace ++ (server_loop P st1 its).trace,
        phase := (server_loop P st1 its).phase }
    | _ => server_iter P st it

/-- The function `main` of server.c: the set-up, then the loop. -/
def server_main (P : Platform) (argv : List String) (errno0 : Nat) (buf0 : List Nat)
    (env : ServerEnv) (its : List IterEnv) : ServerRun :=
  match (server_setup P argv errno0 buf0 env).phase with
  | .receiving st =>
    { trace := (server_setup P argv errno0 buf0 env).trace ++ (server_loop P st its).trace,
      phase := (server_loop P st its).phase }
  | _ => server_setup P argv errno0 buf0 env

/-- The events after the first `sendto` of a trace. -/
def afterSendto : List Event → List Event
  | [] => []
  | e :: es => if e.isSendto then es else afterSendto es

/-- What drives the server from one phase to the next: the start of the
process with its inputs and the answers to the set-up calls, or the answers to
the calls of one turn of the loop. -/
inductive ServerInput where
  | boot (argv : List String) (errno0 : Nat) (buf0 : List Nat) (env : ServerEnv)
  | turn (it : IterEnv)
deriving DecidableEq, Repr

/-- The step function of the server over its phases: the set-up leaves
`setup`, a turn of the loop leaves `receiving`, and nothing leaves `exited`. -/
def server_step (P : Platform) : ServerPhase → ServerInput → ServerPhase
  | .setup, .boot argv errno0 buf0 env => (server_setup P argv errno0 buf0 env).phase
  | .receiving st, .turn it => (server_iter P st it).phase
  | ph, _ => ph

/-- The phase reached from `setup` along a sequence of inputs. -/
def server_reach (P : Platform) (ins : List ServerInput) : ServerPhase :=
  ins.foldl (server_step P) .setup

/-- A failed call leaves an error number between 1 and 255. -/
def SysRet.errnoOk (r : SysRet) : Prop := r.ret = -1 → 1 ≤ r.err ∧ r.err ≤ 255

/-- The error numbers of every failed call of an input are between 1 and 255. -/
def ServerInput.errnoOk : ServerInput → Prop
  | .boot _ _ _ env =>
    env.socket.errnoOk ∧ env.setsockopt.errnoOk ∧ env.bind.errnoOk
  | .turn it => it.recv.ret = -1 → 1 ≤ it.recv.err ∧ it.recv.err ≤ 255

/-- The calls of a turn of the server loop all succeed: `recvfrom` does not
return -1, `inet_ntop` returns a text, `sendto` returns the 19 bytes sent. -/
def IterEnv.succeeds (it : IterEnv) : Prop :=
  it.recv.ret ≠ -1 ∧ it.inet_ntop ≠ none ∧ it.sendto.ret = 19

/-- The port test both programs apply to `argv[2]` (client.c line 18, server.c
line 17), as a proposition: true when the argument is refused. -/
def portRefused (P : Platform) (arg : String) (errno0 : Nat) : Prop :=
  (if (strtol P.longBits (cstr arg)).overflow then P.ERANGE else errno0) ≠ 0 ∨
    deref (strtol P.longBits (cstr arg)).endptr ≠ 0 ∨
    toInt32 (strtol P.longBits (cstr arg)).value < 1 ∨
    toInt32 (strtol P.longBits (cstr arg)).value > 65535

/-- A phase is sound when, if the server has ended, the argument of `exit` is
between 1 and 255. -/
def ServerPhase.sound (ph : ServerPhase) : Prop :=
  ∀ code, ph = .exited code → 1 ≤ code ∧ code ≤ 255

/-! ## Lemmas on the C library model -/

theorem digitChar_toNat (d : Nat) (h : d < 10) : (Nat.digitChar d).toNat = 48 + d := by
  interval_cases d <;> rfl

theorem digitsValue_append (l : List Nat) (c : Nat) :
    digitsValue (l ++ [c]) = 10 * digitsValue l + (c - 48) := by
  simp [digitsValue, List.foldl_append]

theorem toDigitsCore_spec (fuel : Nat) : ∀ (n : Nat) (acc : List Char), n < fuel →
    ∃ l : List Char, Nat.toDigitsCore 10 fuel n acc = l ++ acc ∧ l ≠ [] ∧
      (∀ c ∈ l, isdigit c.toNat = true) ∧ digitsValue (l.map Char.toNat) = n := by
  induction fuel with
  | zero => intro n acc h; omega
  | succ fuel ih =>
    intro n acc h
    have hd : n % 10 < 10 := Nat.mod_lt _ (by decide)
    have hdig : isdigit (Nat.digitChar (n % 10)).toNat = true := by
      rw [digitChar_toNat _ hd]; simp [isdigit]; omega
    rw [Nat.toDigitsCore]
    by_cases h0 : n / 10 = 0
    · refine ⟨[Nat.digitChar (n % 10)], by simp [h0], by simp, ?_, ?_⟩
      · intro c hc
        simp at hc
        rw [hc]; exact hdig
      · simp [digitsValue, digitChar_toNat _ hd]
        omega
    · obtain ⟨l, hl, hne, hall, hval⟩ := ih (n / 10) (Nat.digitChar (n % 10) :: acc) (by omega)
      refine ⟨l ++ [Nat.digitChar (n % 10)], by simp [h0, hl], by simp, ?_, ?_⟩
      · intro c hc
        rcases List.mem_append.1 hc with hc | hc
        · exact hall c hc
        · simp at hc
          rw [hc]; exact hdig
      · rw [List.map_append, List.map_singleton, digitsValue_append, hval,
          digitChar_toNat _ hd]
        omega

theorem decimal_spec (v : Nat) :
    decimal v ≠ [] ∧ (∀ c ∈ decimal v, isdigit c = true) ∧ digitsValue (decimal v) = v := by
  obtain ⟨l, hl, hne, hall, hval⟩ := toDigitsCore_spec (v + 1) v [] (by omega)
  have h : decimal v = l.map Char.toNat := by
    simp [decimal, Nat.toDigits, hl]
  rw [h]
  refine ⟨by simpa using hne, ?_, hval⟩
  intro c hc
  obtain ⟨d, hd, rfl⟩ := List.mem_map.1 hc
  exact hall d hd

theorem cstr_repr (v : Nat) : cstr (Nat.repr v) = decimal v := rfl

theorem strtol_digits (w : Nat) (ds : List Nat) (hne : ds ≠ [])
    (hd : ∀ c ∈ ds, isdigit c = true) (hv : digitsValue ds ≤ 2 ^ (w - 1) - 1) :
    strtol w ds = { value := (digitsValue ds : Int), endptr := [], overflow := false } := by
  cases ds with
  | nil => exact absurd rfl hne
  | cons c cs =>
    have hc : isdigit c = true := hd c (by simp)
    have hc2 : 48 ≤ c ∧ c ≤ 57 := by simpa [isdigit] using hc
    have hsp : isspace c = false := by
      simp [isspace]; omega
    have htake : (c :: cs).takeWhile isdigit = c :: cs :=
      List.takeWhile_eq_self_iff.2 hd
    have hdrop : (c :: cs).dropWhile isdigit = [] :=
      List.dropWhile_eq_nil_iff.2 hd
    have h45 : (c == 45) = false := by simp; omega
    have h43 : (c == 43) = false := by simp; omega
    have hs1 : (c :: cs).dropWhile isspace = c :: cs := by
      simp [List.dropWhile, hsp]
    unfold strtol
    simp only [hs1, deref, List.headD_cons, h45, h43, Bool.or_self, Bool.false_eq_true,
      if_false, htake, hdrop]
    simp
    omega

theorem strtol_repr (w v : Nat) (hw : 32 ≤ w) (hv : v ≤ 65535) :
    strtol w (cstr (Nat.repr v)) = { value := (v : Int), endptr := [], overflow := false } := by
  obtain ⟨hne, hall, hval⟩ := decimal_spec v
  have hpow : 2 ^ 31 ≤ 2 ^ (w - 1) := Nat.pow_le_pow_right (by decide) (by omega)
  have h := strtol_digits w (decimal v) hne hall (by rw [hval]; omega)
  rw [hval] at h
  rw [cstr_repr]; exact h

theorem toInt32_small (v : Nat) (hv : v ≤ 65535) : toInt32 (v : Int) = (v : Int) := by
  unfold toInt32; omega

theorem toUInt16_small (v : Nat) (hv : v ≤ 65535) : toUInt16 (v : Int) = v := by
  unfold toUInt16; omega

theorem fmt_d_nat (v : Nat) : fmt_d (v : Int) = decimal v := by
  simp [fmt_d]

theorem toSizeT_eq_iff (w : Nat) (r : Int) (k : Nat) (hw : 32 ≤ w) (hk : k < 2 ^ 31)
    (hlo : -(2 ^ (w - 1) : Int) ≤ r) (hhi : r < 2 ^ (w - 1)) :
    toSizeT w r = k ↔ r = (k : Int) := by
  have hpow : (2 : Int) ^ 31 ≤ 2 ^ (w - 1) := by
    have : 2 ^ 31 ≤ 2 ^ (w - 1) := Nat.pow_le_pow_right (by decide) (by omega)
    exact_mod_cast this
  have hw2 : (2 : Int) ^ w = 2 * 2 ^ (w - 1) := by
    have : w = (w - 1) + 1 := by omega
    conv_lhs => rw [this, pow_succ]
    ring
  have hk2 : (k : Int) < 2 ^ 31 := by exact_mod_cast hk
  unfold toSizeT
  generalize hA : (2 : Int) ^ (w - 1) = A at *
  rw [hw2]
  by_cases hr : 0 ≤ r
  · rw [Int.emod_eq_of_lt hr (by omega)]
    omega
  · have h1 : r % (2 * A) = r + 2 * A := by
      rw [← Int.add_mul_emod_self_left r (2 * A) 1, mul_one]
      exact Int.emod_eq_of_lt (by omega) (by omega)
    rw [h1]
    omega

theorem fmt_prec_s_recv (buf : List Nat) (r : RecvRet) (hret : r.ret = r.data.length)
    (hlen : r.data.length ≤ 65535) :
    fmt_prec_s (toInt32 r.ret) (recv_write buf 65535 r) = r.data.takeWhile (fun b => b != 0) := by
  have h1 : r.ret ≠ -1 := by omega
  have h2 : toInt32 r.ret = (r.data.length : Int) := by
    rw [hret]; unfold toInt32; omega
  have h3 : r.data.take 65535 = r.data := List.take_of_length_le hlen
  rw [h2]
  simp [fmt_prec_s, recv_write, h1, h3, fmt_s, List.take_append_eq_append_take]

/-! ## Lemmas on the two processes -/

theorem server_main_trace (P : Platform) (argv : List String) (errno0 : Nat) (buf0 : List Nat)
    (env : ServerEnv) (its : List IterEnv) :
    ∃ rest, (server_main P argv errno0 buf0 env its).trace
      = (server_setup P argv errno0 buf0 env).trace ++ rest := by
  unfold server_main
  split
  · exact ⟨_, rfl⟩
  · exact ⟨[], by simp⟩

theorem client_recv_loop_trace (P : Platform) (fd : Int) (rs : List RecvRet) :
    ∀ (tr : List Event) (errno : Nat) (buf : List Nat),
      ∃ rest, (client_recv_loop P fd tr errno buf rs).trace
        = tr ++ Event.recvfrom fd 65535 :: rest := by
  induction rs with
  | nil => intro tr errno buf; exact ⟨[], rfl⟩
  | cons r rs ih =>
    intro tr errno buf
    unfold client_recv_loop
    simp only []
    split_ifs
    · exact ⟨_, List.append_assoc _ _ _⟩
    · exact ⟨_, List.append_assoc _ _ _⟩
    · obtain ⟨rest, h⟩ := ih (tr ++ [Event.recvfrom fd 65535] ++ [Event.sleep 1])
        errno (recv_write buf 65535 r)
      rw [h]
      refine ⟨[Event.sleep 1] ++ Event.recvfrom fd 65535 :: rest, ?_⟩
      simp
    · exact ⟨_, List.append_assoc _ _ _⟩

theorem strlen_hello : strlen (cstr "Hello, World!" ++ [0]) = 13 := by decide

theorem take_hello :
    (cstr "Hello, World!" ++ [0]).take 13 = cstr "Hello, World!" := by decide

theorem strlen_welcome : strlen (cstr "Welcome to CSE5462." ++ [0]) = 19 := by decide

theorem take_welcome :
    (cstr "Welcome to CSE5462." ++ [0]).take 19 = cstr "Welcome to CSE5462." := by decide

theorem client_recv_loop_head (P : Platform) (fd : Int) (rs : List RecvRet) (e : Event)
    (tr : List Event) (errno : Nat) (buf : List Nat) :
    (client_recv_loop P fd (e :: tr) errno buf rs).trace.head? = some e := by
  obtain ⟨rest, h⟩ := client_recv_loop_trace P fd rs (e :: tr) errno buf
  rw [h]; rfl

theorem client_main_head (P : Platform) (a0 ip port : String) (errno0 : Nat) (buf0 : List Nat)
    (env : ClientEnv) (h : ¬ portRefused P port errno0) :
    (client_main P [a0, ip, port] errno0 buf0 env).trace.head? = some Event.socket := by
  unfold portRefused at h
  unfold client_main
  simp only [List.length_cons, List.length_nil, List.getD_cons_succ, List.getD_cons_zero]
  rw [if_neg (by decide), if_neg h]
  split_ifs <;>
    first
    | exact client_recv_loop_head _ _ _ _ _ _ _
    | simp [try_fail, ERROR]

theorem client_main_reaches_loop (P : Platform) (a0 ip port : String) (errno0 : Nat)
    (buf0 : List Nat) (env : ClientEnv) (h : ¬ portRefused P port errno0)
    (h1 : env.socket.ret ≠ -1) (h2 : env.setsockopt.ret ≠ -1) (h3 : env.inet_pton.ret = 1)
    (h4 : toSizeT P.longBits env.sendto.ret = 13) :
    client_main P [a0, ip, port] errno0 buf0 env =
      client_recv_loop P env.socket.ret
        [Event.socket, Event.setsockopt env.socket.ret "SO_RCVTIMEO" [5, 0],
          Event.inet_pton (cstr ip),
          Event.sendto env.socket.ret (cstr "Hello, World!")
            { sin_family := AF_INET,
              sin_port := htons P (toUInt16 (toInt32 (strtol P.longBits (cstr port)).value)),
              sin_addr := env.inet_pton.addr } 16]
        (if (strtol P.longBits (cstr port)).overflow then P.ERANGE else errno0) buf0 env.recvs := by
  unfold portRefused at h
  unfold client_main
  simp only [List.length_cons, List.length_nil, List.getD_cons_succ, List.getD_cons_zero]
  rw [if_neg (by decide), if_neg h]
  simp only [strlen_hello, take_hello]
  rw [if_neg h1, if_neg h2, if_neg (by simp [h3]), if_neg (by simp [h4])]
  rfl

theorem client_main_sends (P : Platform) (a0 ip port : String) (errno0 : Nat)
    (buf0 : List Nat) (env : ClientEnv) (h : ¬ portRefused P port errno0)
    (h1 : env.socket.ret ≠ -1) (h2 : env.setsockopt.ret ≠ -1) (h3 : env.inet_pton.ret = 1) :
    ∃ rest, (client_main P [a0, ip, port] errno0 buf0 env).trace =
      [Event.socket, Event.setsockopt env.socket.ret "SO_RCVTIMEO" [5, 0],
        Event.inet_pton (cstr ip),
        Event.sendto env.socket.ret (cstr "Hello, World!")
          { sin_family := AF_INET,
            sin_port := htons P (toUInt16 (toInt32 (strtol P.longBits (cstr port)).value)),
            sin_addr := env.inet_pton.addr } 16] ++ rest := by
  by_cases h4 : toSizeT P.longBits env.sendto.ret = 13
  · rw [client_main_reaches_loop P a0 ip port errno0 buf0 env h h1 h2 h3 h4]
    obtain ⟨rest, hr⟩ := client_recv_loop_trace P env.socket.ret env.recvs
      [Event.socket, Event.setsockopt env.socket.ret "SO_RCVTIMEO" [5, 0],
        Event.inet_pton (cstr ip),
        Event.sendto env.socket.ret (cstr "Hello, World!")
          { sin_family := AF_INET,
            sin_port := htons P (toUInt16 (toInt32 (strtol P.longBits (cstr port)).value)),
            sin_addr := env.inet_pton.addr } 16]
      (if (strtol P.longBits (cstr port)).overflow then P.ERANGE else errno0) buf0
    exact ⟨_, hr⟩
  · unfold portRefused at h
    unfold client_main
    simp only [List.length_cons, List.length_nil, List.getD_cons_succ, List.getD_cons_zero]
    rw [if_neg (by decide), if_neg h]
    simp only [strlen_hello, take_hello]
    rw [if_neg h1, if_neg h2, if_neg (by simp [h3]), if_pos h4]
    exact ⟨_, rfl⟩

theorem server_setup_head (P : Platform) (a0 ip port : String) (errno0 : Nat) (buf0 : List Nat)
    (env : ServerEnv) (h : ¬ portRefused P port errno0) :
    (server_setup P [a0, ip, port] errno0 buf0 env).trace.head? = some Event.socket := by
  unfold portRefused at h
  unfold server_setup
  simp only [List.length_cons, List.length_nil, List.getD_cons_succ, List.getD_cons_zero]
  rw [if_neg (by decide), if_neg h]
  split_ifs <;> simp [server_try_fail, server_ERROR, try_fail, ERROR]

theorem server_setup_ok (P : Platform) (a0 ip port : String) (errno0 : Nat) (buf0 : List Nat)
    (env : ServerEnv) (h : ¬ portRefused P port errno0)
    (h1 : env.socket.ret ≠ -1) (h2 : env.setsockopt.ret ≠ -1) (h3 : env.inet_pton.ret = 1)
    (h4 : env.bind.ret ≠ -1) :
    server_setup P [a0, ip, port] errno0 buf0 env =
      { trace := [Event.socket, Event.setsockopt env.socket.ret "SO_REUSEADDR" [1],
          Event.inet_pton (cstr ip),
          Event.bind env.socket.ret
            { sin_family := AF_INET,
              sin_port := htons P (toUInt16 (toInt32 (strtol P.longBits (cstr port)).value)),
              sin_addr := env.inet_pton.addr },
          Event.stdout (cstr "bound on port: "
            ++ fmt_d (toInt32 (strtol P.longBits (cstr port)).value) ++ [10])],
        phase := .receiving { sockfd := env.socket.ret, buf := buf0 } } := by
  unfold portRefused at h
  unfold server_setup
  simp only [List.length_cons, List.length_nil, List.getD_cons_succ, List.getD_cons_zero]
  rw [if_neg (by decide), if_neg h, if_neg h1, if_neg h2, if_neg (by simp [h3]), if_neg h4]
  rfl

theorem server_iter_reaches_send (P : Platform) (st : ServerState) (it : IterEnv)
    (ipstr : List Nat) (h1 : it.recv.ret ≠ -1) (h2 : it.inet_ntop = some ipstr) :
    server_iter P st it =
      if toSizeT P.longBits it.sendto.ret ≠ 19 then
        server_ERROR
          [Event.recvfrom st.sockfd 65535, Event.inet_ntop it.recv.src.sin_addr,
            Event.stdout (cstr "recv: "
              ++ fmt_prec_s (toInt32 it.recv.ret) (recv_write st.buf 65535 it.recv)
              ++ cstr " from " ++ fmt_s ipstr ++ [58] ++ fmt_d (it.recv.src.sin_port : Int)
              ++ [10]),
            Event.sendto st.sockfd (cstr "Welcome to CSE5462.") it.recv.src it.recv.srclen]
          "Failed to send respose to client"
      else
        { trace :=
            [Event.recvfrom st.sockfd 65535, Event.inet_ntop it.recv.src.sin_addr,
              Event.stdout (cstr "recv: "
                ++ fmt_prec_s (toInt32 it.recv.ret) (recv_write st.buf 65535 it.recv)
                ++ cstr " from " ++ fmt_s ipstr ++ [58] ++ fmt_d (it.recv.src.sin_port : Int)
                ++ [10]),
              Event.sendto st.sockfd (cstr "Welcome to CSE5462.") it.recv.src it.recv.srclen],
          phase := .receiving
            { sockfd := st.sockfd, buf := recv_write st.buf 65535 it.recv } } := by
  unfold server_iter
  simp only [strlen_welcome, take_welcome]
  rw [if_neg h1, h2]
  rfl

theorem port_numeral_passes (P : Platform) (v : Nat) (hw : 32 ≤ P.longBits) (hlo : 1 ≤ v)
    (hhi : v ≤ 65535) : ¬ portRefused P (Nat.repr v) 0 := by
  unfold portRefused
  rw [strtol_repr P.longBits v hw hhi]
  simp only [toInt32_small v hhi, deref]
  simp
  omega

/-! ## Port validation -/

/-- C1, evaluated at the failing input. With a 64-bit `long`, the argument
`4294967297` is converted without overflow, the cast to `int` turns it into 1,
and the test of line 18 (client) and line 17 (server) lets it through: the
first thing either program then does is call `socket`. (With a 32-bit `long`
the same argument overflows in `strtol` and is refused.) -/
theorem port_4294967297_passes_validation (buf0 : List Nat) (cenv : ClientEnv)
    (senv : ServerEnv) (its : List IterEnv) :
    strtol 64 (cstr "4294967297") = { value := 4294967297, endptr := [], overflow := false } ∧
    toInt32 (strtol 64 (cstr "4294967297")).value = 1 ∧
    ¬ portRefused linux_x86_64 "4294967297" 0 ∧
    (client_main linux_x86_64 ["client", "127.0.0.1", "4294967297"] 0 buf0 cenv).trace.head?
      = some Event.socket ∧
    (server_main linux_x86_64 ["server", "127.0.0.1", "4294967297"] 0 buf0 senv its).trace.head?
      = some Event.socket ∧
    portRefused { linux_x86_64 with longBits := 32 } "4294967297" 0 := by
  have hp : ¬ portRefused linux_x86_64 "4294967297" 0 := by
    unfold portRefused; decide
  refine ⟨by decide, by decide, hp, client_main_head _ _ _ _ _ _ _ hp, ?_,
    by unfold portRefused; decide⟩
  obtain ⟨rest, h⟩ := server_main_trace linux_x86_64 ["server", "127.0.0.1", "4294967297"] 0
    buf0 senv its
  have hs := server_setup_head linux_x86_64 "server" "127.0.0.1" "4294967297" 0 buf0 senv hp
  rw [h]
  cases ht : (server_setup linux_x86_64 ["server", "127.0.0.1", "4294967297"] 0 buf0 senv).trace with
  | nil => rw [ht] at hs; simp at hs
  | cons e es => rw [ht] at hs; simpa using hs

/-- C9. For every `v` from 1 to 65535, written as its decimal numeral, and
`errno` 0 at entry: `strtol` returns `v` with nothing left over, the port test
accepts, the casts to `int` and to `unsigned short` keep `v`, the value stored
in `sin_port` reads back as `v` through `ntohs` and occupies the two bytes
`v / 256`, `v % 256` in memory, the client sends to and the server binds an
address with that `sin_port`, and the server prints `bound on port: v`. -/
theorem port_accept_convert (P : Platform) (v : Nat) (a0 ip : String) (buf0 : List Nat)
    (cenv : ClientEnv) (senv : ServerEnv) (hw : 32 ≤ P.longBits) (hlo : 1 ≤ v)
    (hhi : v ≤ 65535) :
    strtol P.longBits (cstr (Nat.repr v)) = { value := (v : Int), endptr := [], overflow := false } ∧
    ¬ portRefused P (Nat.repr v) 0 ∧
    toInt32 (v : Int) = (v : Int) ∧
    toUInt16 (toInt32 (v : Int)) = v ∧
    ntohs P (htons P v) = v ∧
    fieldBytes16 P (htons P v) = [v / 256, v % 256] ∧
    (client_main P [a0, ip, Nat.repr v] 0 buf0 cenv).trace.head? = some Event.socket ∧
    (cenv.socket.ret ≠ -1 → cenv.setsockopt.ret ≠ -1 → cenv.inet_pton.ret = 1 →
      Event.sendto cenv.socket.ret (cstr "Hello, World!")
          { sin_family := AF_INET, sin_port := htons P v, sin_addr := cenv.inet_pton.addr } 16
        ∈ (client_main P [a0, ip, Nat.repr v] 0 buf0 cenv).trace) ∧
    (server_setup P [a0, ip, Nat.repr v] 0 buf0 senv).trace.head? = some Event.socket ∧
    (senv.socket.ret ≠ -1 → senv.setsockopt.ret ≠ -1 → senv.inet_pton.ret = 1 →
      senv.bind.ret ≠ -1 →
      server_setup P [a0, ip, Nat.repr v] 0 buf0 senv =
        { trace := [Event.socket, Event.setsockopt senv.socket.ret "SO_REUSEADDR" [1],
            Event.inet_pton (cstr ip),
            Event.bind senv.socket.ret
              { sin_family := AF_INET, sin_port := htons P v, sin_addr := senv.inet_pton.addr },
            Event.stdout (cstr "bound on port: " ++ decimal v ++ [10])],
          phase := .receiving { sockfd := senv.socket.ret, buf := buf0 } }) := by
  have hst := strtol_repr P.longBits v hw hhi
  have hp := port_numeral_passes P v hw hlo hhi
  have hi := toInt32_small v hhi
  have hu : toUInt16 (toInt32 (v : Int)) = v := by rw [hi]; exact toUInt16_small v hhi
  have hval : toInt32 (strtol P.longBits (cstr (Nat.repr v))).value = (v : Int) := by
    rw [hst]; exact hi
  refine ⟨hst, hp, hi, hu, ?_, ?_, client_main_head _ _ _ _ _ _ _ hp, ?_,
    server_setup_head _ _ _ _ _ _ _ hp, ?_⟩
  · unfold ntohs htons
    split_ifs
    · have h1 : v / 256 < 256 := by omega
      have h2 : v / 256 % 256 = v / 256 := Nat.mod_eq_of_lt h1
      have h3 : (v % 256 * 256 + v / 256) / 256 = v % 256 := by omega
      have e1 : (v % 256 * 256 + v / 256) % 256 = v / 256 := by omega
      have e2 : v % 256 % 256 = v % 256 := by omega
      rw [h2, h3, e1, e2]
      omega
    · omega
  · unfold fieldBytes16 htons
    split_ifs
    · have h1 : v / 256 < 256 := by omega
      have h2 : v / 256 % 256 = v / 256 := Nat.mod_eq_of_lt h1
      have h3 : (v % 256 * 256 + v / 256) / 256 = v % 256 := by omega
      have e1 : (v % 256 * 256 + v / 256) % 256 = v / 256 := by omega
      have e2 : v % 256 % 256 = v % 256 := by omega
      rw [h2, h3, e1, e2]
    · have e1 : v % 65536 / 256 % 256 = v / 256 := by omega
      have e2 : v % 65536 % 256 = v % 256 := by omega
      rw [e1, e2]
  · intro h1 h2 h3
    obtain ⟨rest, h⟩ := client_main_sends P a0 ip (Nat.repr v) 0 buf0 cenv hp h1 h2 h3
    rw [h, hval, toUInt16_small v hhi]
    simp
  · intro h1 h2 h3 h4
    rw [server_setup_ok P a0 ip (Nat.repr v) 0 buf0 senv hp h1 h2 h3 h4, hval,
      toUInt16_small v hhi, fmt_d_nat]

/-- Witness for C9: port 8080 on Linux x86-64. -/
theorem port_accept_convert_witness :
    strtol 64 (cstr (Nat.repr 8080)) = { value := 8080, endptr := [], overflow := false } ∧
    fieldBytes16 linux_x86_64 (htons linux_x86_64 8080) = [31, 144] :=
  have h := port_accept_convert linux_x86_64 8080 "client" "127.0.0.1" []
    ⟨⟨3, 0⟩, ⟨0, 0⟩, ⟨1, 16777343⟩, ⟨13, 0⟩, []⟩ ⟨⟨3, 0⟩, ⟨0, 0⟩, ⟨1, 16777343⟩, ⟨0, 0⟩⟩
    (by decide) (by decide) (by decide)
  ⟨h.1, h.2.2.2.2.2.1⟩

/-! ## The receive loop of the client -/

/-- C2, evaluated at the failing input. The client is started with a valid
address and port, every call up to `sendto` succeeds, and the first `recvfrom`
returns -1 with error number `e`; for a timeout `e` is `EAGAIN`, 11 on Linux.
The run ends there with `perror` and `exit(e)`: one `recvfrom`, no `sleep`, no
second attempt, whatever the error number and whatever answers would have
followed. -/
theorem client_timeout_is_fatal (e : Nat) (buf0 : List Nat) (rs : List RecvRet) :
    linux_x86_64.EAGAIN = 11 ∧ linux_x86_64.EWOULDBLOCK = 11 ∧ exitStatus 11 ≠ 0 ∧
    client_main linux_x86_64 ["client", "127.0.0.1", "8080"] 0 buf0
        { socket := ⟨3, 0⟩, setsockopt := ⟨0, 0⟩, inet_pton := ⟨1, 16777343⟩,
          sendto := ⟨13, 0⟩,
          recvs := { ret := -1, err := e, data := [], src := ⟨0, 0, 0⟩, srclen := 16 } :: rs } =
      { trace := [Event.socket, Event.setsockopt 3 "SO_RCVTIMEO" [5, 0],
          Event.inet_pton (cstr "127.0.0.1"),
          Event.sendto 3 (cstr "Hello, World!")
            { sin_family := 2, sin_port := 36895, sin_addr := 16777343 } 16,
          Event.recvfrom 3 65535,
          Event.perror
            "recvfrom(sockfd, buf, sizeof(buf), 0, (struct sockaddr *)&serveraddress, &serveraddrlen)"
            e],
        outcome := .exited e } := by
  refine ⟨rfl, rfl, by decide, ?_⟩
  rw [client_main_reaches_loop linux_x86_64 "client" "127.0.0.1" "8080" 0 buf0 _
    (by unfold portRefused; decide) (by simp) (by simp) (by simp)
    (by show toSizeT 64 13 = 13; decide)]
  unfold client_recv_loop
  simp only [if_pos, try_fail]
  have h : htons linux_x86_64 (toUInt16 (toInt32 (strtol linux_x86_64.longBits
      (cstr "8080")).value)) = 36895 := by decide
  rw [h]
  rfl

/-! ## The server loop: log line and reply -/

theorem server_iter_succeeds (P : Platform) (st : ServerState) (it : IterEnv)
    (hw : 32 ≤ P.longBits) (h : it.succeeds) :
    ∃ line, server_iter P st it =
      { trace := [Event.recvfrom st.sockfd 65535, Event.inet_ntop it.recv.src.sin_addr,
          Event.stdout line,
          Event.sendto st.sockfd (cstr "Welcome to CSE5462.") it.recv.src it.recv.srclen],
        phase := .receiving { sockfd := st.sockfd, buf := recv_write st.buf 65535 it.recv } } := by
  obtain ⟨h1, h2, h3⟩ := h
  obtain ⟨ipstr, hip⟩ := Option.ne_none_iff_exists'.1 h2
  have hpow : 2 ^ 31 ≤ 2 ^ (P.longBits - 1) := Nat.pow_le_pow_right (by decide) (by omega)
  have hpowi : (2 : Int) ^ 31 ≤ 2 ^ (P.longBits - 1) := by exact_mod_cast hpow
  have h4 : toSizeT P.longBits it.sendto.ret = 19 :=
    (toSizeT_eq_iff P.longBits it.sendto.ret 19 hw (by decide) (by rw [h3]; omega)
      (by rw [h3]; omega)).2 h3
  rw [server_iter_reaches_send P st it ipstr h1 hip, if_neg (by simp [h4])]
  exact ⟨_, rfl⟩

/-- C4, counterexample. A datagram of the three bytes `A`, 0, `B` from
127.0.0.1: the line printed is `recv: A from 127.0.0.1:36895`, so the logged
payload is one byte long, not three, and differs from the datagram. -/
theorem server_log_stops_at_zero_byte :
    stdoutOf (server_iter linux_x86_64 { sockfd := 3, buf := [] }
        { recv := { ret := 3, err := 0, data := [65, 0, 66],
                    src := { sin_family := 2, sin_port := 36895, sin_addr := 16777343 },
                    srclen := 16 },
          inet_ntop := some (cstr "127.0.0.1"), sendto := ⟨19, 0⟩ }).trace
      = cstr "recv: A from 127.0.0.1:36895" ++ [10] ∧
    stdoutOf (server_iter linux_x86_64 { sockfd := 3, buf := [] }
        { recv := { ret := 3, err := 0, data := [65, 0, 66],
                    src := { sin_family := 2, sin_port := 36895, sin_addr := 16777343 },
                    srclen := 16 },
          inet_ntop := some (cstr "127.0.0.1"), sendto := ⟨19, 0⟩ }).trace
      ≠ cstr "recv: " ++ [65, 0, 66] ++ cstr " from 127.0.0.1:36895" ++ [10] := by
  decide

/-- C4, amended. For every received datagram `b` of length at most 65535 (the
return value of `recvfrom` being that length), the line printed is `recv: `,
then the bytes of `b` that come before its first zero byte, then ` from `, the
text of `inet_ntop`, a colon, the decimal value of `sin_port` and a newline;
when `b` has no zero byte these are exactly the bytes of `b`. Bytes left in the
buffer by earlier datagrams never show. -/
theorem server_log_payload (P : Platform) (st : ServerState) (it : IterEnv) (ipstr : List Nat)
    (hret : it.recv.ret = it.recv.data.length) (hlen : it.recv.data.length ≤ 65535)
    (hnt : it.inet_ntop = some ipstr) :
    (∃ rest, (server_iter P st it).trace =
      [Event.recvfrom st.sockfd 65535, Event.inet_ntop it.recv.src.sin_addr,
        Event.stdout (cstr "recv: " ++ it.recv.data.takeWhile (fun b => b != 0)
          ++ cstr " from " ++ fmt_s ipstr ++ [58] ++ decimal it.recv.src.sin_port ++ [10])]
        ++ rest) ∧
    ((∀ b ∈ it.recv.data, b ≠ 0) →
      it.recv.data.takeWhile (fun b => b != 0) = it.recv.data) := by
  have h1 : it.recv.ret ≠ -1 := by omega
  refine ⟨?_, ?_⟩
  · rw [server_iter_reaches_send P st it ipstr h1 hnt, fmt_prec_s_recv st.buf it.recv hret hlen,
      fmt_d_nat]
    split_ifs
    · exact ⟨_, rfl⟩
    · exact ⟨_, rfl⟩
  · intro h
    apply List.takeWhile_eq_self_iff.2
    intro b hb
    simpa using h b hb

/-- Witness for C4 (amended): the datagram `Hello, World!` from 127.0.0.1. -/
theorem server_log_payload_witness :
    (cstr "Hello, World!").takeWhile (fun b => b != 0) = cstr "Hello, World!" :=
  (server_log_payload linux_x86_64 { sockfd := 3, buf := [] }
    { recv := { ret := 13, err := 0, data := cstr "Hello, World!",
                src := { sin_family := 2, sin_port := 36895, sin_addr := 16777343 },
                srclen := 16 },
      inet_ntop := some (cstr "127.0.0.1"), sendto := ⟨19, 0⟩ }
    (cstr "127.0.0.1") (by decide) (by decide) rfl).2 (by decide)

theorem server_loop_sendtos (P : Platform) (hw : 32 ≤ P.longBits) (its : List IterEnv) :
    ∀ st : ServerState, (∀ it ∈ its, it.succeeds) →
      (∃ st1, (server_loop P st its).phase = .receiving st1 ∧ st1.sockfd = st.sockfd) ∧
      (server_loop P st its).trace.filter Event.isSendto =
        its.map (fun it =>
          Event.sendto st.sockfd (cstr "Welcome to CSE5462.") it.recv.src it.recv.srclen) := by
  induction its with
  | nil => intro st _; exact ⟨⟨st, rfl, rfl⟩, rfl⟩
  | cons it its ih =>
    intro st h
    obtain ⟨line, hit⟩ := server_iter_succeeds P st it hw (h it (by simp))
    obtain ⟨⟨st1, hph, hfd⟩, htr⟩ :=
      ih { sockfd := st.sockfd, buf := recv_write st.buf 65535 it.recv }
        (fun i hi => h i (by simp [hi]))
    unfold server_loop
    rw [hit]
    simp only []
    refine ⟨⟨st1, hph, hfd⟩, ?_⟩
    rw [List.filter_append, htr]
    simp [List.filter, Event.isSendto]

/-- C5. In a turn of the loop in which `recvfrom` succeeds and `inet_ntop`
returns a text, the turn makes exactly one `sendto`: on the server socket,
of the 19 bytes `Welcome to CSE5462.` (none of them zero), to the address and
address length that this turn's `recvfrom` stored, whatever the payload and
whatever the state left by earlier turns. Over any number of successful turns
the k-th `sendto` goes to the sender of the k-th datagram. -/
theorem server_reply_fixed_to_sender (P : Platform) (hw : 32 ≤ P.longBits) :
    (∀ (st : ServerState) (it : IterEnv) (ipstr : List Nat),
      it.recv.ret ≠ -1 → it.inet_ntop = some ipstr →
      (server_iter P st it).trace.filter Event.isSendto =
        [Event.sendto st.sockfd (cstr "Welcome to CSE5462.") it.recv.src it.recv.srclen]) ∧
    (cstr "Welcome to CSE5462.").length = 19 ∧
    (∀ b ∈ cstr "Welcome to CSE5462.", b ≠ 0) ∧
    (∀ (st : ServerState) (its : List IterEnv), (∀ it ∈ its, it.succeeds) →
      (server_loop P st its).trace.filter Event.isSendto =
        its.map (fun it =>
          Event.sendto st.sockfd (cstr "Welcome to CSE5462.") it.recv.src it.recv.srclen)) := by
  refine ⟨?_, by decide, by decide, ?_⟩
  · intro st it ipstr h1 h2
    rw [server_iter_reaches_send P st it ipstr h1 h2]
    split_ifs <;> simp [server_ERROR, ERROR, List.filter, Event.isSendto]
  · intro st its h
    exact (server_loop_sendtos P hw its st h).2

/-- Witness for C5: Linux x86-64, two datagrams from two senders. -/
theorem server_reply_fixed_to_sender_witness :
    (server_loop linux_x86_64 { sockfd := 3, buf := [] }
      [{ recv := { ret := 2, err := 0, data := [104, 105],
                   src := { sin_family := 2, sin_port := 36895, sin_addr := 16777343 },
                   srclen := 16 },
         inet_ntop := some (cstr "127.0.0.1"), sendto := ⟨19, 0⟩ },
       { recv := { ret := 0, err := 0, data := [],
                   src := { sin_family := 2, sin_port := 20480, sin_addr := 33554559 },
                   srclen := 16 },
         inet_ntop := some (cstr "127.0.0.2"), sendto := ⟨19, 0⟩ }]).trace.filter Event.isSendto
      = [Event.sendto 3 (cstr "Welcome to CSE5462.")
           { sin_family := 2, sin_port := 36895, sin_addr := 16777343 } 16,
         Event.sendto 3 (cstr "Welcome to CSE5462.")
           { sin_family := 2, sin_port := 20480, sin_addr := 33554559 } 16] :=
  (server_reply_fixed_to_sender linux_x86_64 (by decide)).2.2.2 _ _
    (by
      intro it hit
      simp only [List.mem_cons, List.mem_singleton, List.not_mem_nil, or_false] at hit
      rcases hit with rfl | rfl <;> exact ⟨by decide, by simp, rfl⟩)

theorem field_of_network_bytes (P : Platform) (x p : Nat) (hp : p ≤ 65535) (hx : x < 65536)
    (h : fieldBytes16 P x = [p / 256, p % 256]) : x = htons P p := by
  unfold fieldBytes16 at h
  unfold htons
  have hq : p / 256 < 256 := by omega
  have hq2 : p / 256 % 256 = p / 256 := Nat.mod_eq_of_lt hq
  have hp2 : p % 65536 = p := Nat.mod_eq_of_lt (by omega)
  split_ifs at h ⊢
  · simp only [List.cons.injEq, and_true] at h
    rw [hq2]; omega
  · simp only [List.cons.injEq, and_true] at h
    rw [hp2]; omega

/-- C10. A sender with UDP source port `p`: the two bytes of
`clientaddr.sin_port` in memory are `p / 256`, `p % 256` (network order). The
number printed after the colon of the `recv:` line is the decimal value of
that field as the host reads it, with no `ntohs`; it equals `htons p`, which on
a little-endian host is `(p % 256) * 256 + p / 256`, and that equals `p` exactly
when the two bytes of `p` are equal. -/
theorem logged_port_is_raw_field (P : Platform) (st : ServerState) (it : IterEnv) (p : Nat)
    (ipstr : List Nat) (hp : p ≤ 65535) (hrecv : it.recv.ret ≠ -1)
    (hnt : it.inet_ntop = some ipstr) (hfield : it.recv.src.sin_port < 65536)
    (hbytes : fieldBytes16 P it.recv.src.sin_port = [p / 256, p % 256]) :
    (∃ rest, (server_iter P st it).trace =
      [Event.recvfrom st.sockfd 65535, Event.inet_ntop it.recv.src.sin_addr,
        Event.stdout (cstr "recv: "
          ++ fmt_prec_s (toInt32 it.recv.ret) (recv_write st.buf 65535 it.recv)
          ++ cstr " from " ++ fmt_s ipstr ++ [58] ++ decimal (htons P p) ++ [10])] ++ rest) ∧
    it.recv.src.sin_port = htons P p ∧
    (P.littleEndian = true →
      htons P p = (p % 256) * 256 + p / 256 ∧ (htons P p = p ↔ p % 256 = p / 256)) := by
  have hx := field_of_network_bytes P it.recv.src.sin_port p hp hfield hbytes
  refine ⟨?_, hx, ?_⟩
  · rw [server_iter_reaches_send P st it ipstr hrecv hnt, fmt_d_nat, hx]
    split_ifs
    · exact ⟨_, rfl⟩
    · exact ⟨_, rfl⟩
  · intro hle
    have hq : p / 256 < 256 := by omega
    have hq2 : p / 256 % 256 = p / 256 := Nat.mod_eq_of_lt hq
    unfold htons
    rw [if_pos hle, hq2]
    refine ⟨rfl, ?_⟩
    constructor <;> intro h <;> omega

/-- Witness for C10: a sender on port 8080 seen from Linux x86-64; the field
reads 36895. -/
theorem logged_port_is_raw_field_witness :
    htons linux_x86_64 8080 = (8080 % 256) * 256 + 8080 / 256 ∧
      (htons linux_x86_64 8080 = 8080 ↔ 8080 % 256 = 8080 / 256) :=
  (logged_port_is_raw_field linux_x86_64 { sockfd := 3, buf := [] }
    { recv := { ret := 2, err := 0, data := [104, 105],
                src := { sin_family := 2, sin_port := 36895, sin_addr := 16777343 },
                srclen := 16 },
      inet_ntop := some (cstr "127.0.0.1"), sendto := ⟨19, 0⟩ }
    8080 (cstr "127.0.0.1") (by decide) (by decide) rfl (by decide) (by decide)).2.2 rfl

/-! ## The client: printing the reply -/

theorem client_recv_loop_succeeds (P : Platform) (fd : Int) (tr : List Event) (errno : Nat)
    (buf : List Nat) (r : RecvRet) (rs : List RecvRet)
    (hret : r.ret = r.data.length) (hlen : r.data.length ≤ 65535) :
    client_recv_loop P fd tr errno buf (r :: rs) =
      { trace := tr ++ [Event.recvfrom fd 65535,
          Event.stdout (cstr "Server: " ++ r.data.takeWhile (fun b => b != 0) ++ [10])],
        outcome := .exited 0 } := by
  have h1 : r.ret ≠ -1 := by omega
  have h2 : ¬ toInt32 r.ret < 0 := by
    rw [hret]; unfold toInt32; omega
  unfold client_recv_loop
  simp only []
  rw [if_neg h1, if_neg h2, fmt_prec_s_recv buf r hret hlen]
  simp

/-- C6, counterexample. The reply is the three bytes `A`, 0, `B`: the client
writes `Server: A` and a newline, not the three bytes of the reply. -/
theorem client_print_stops_at_zero_byte :
    stdoutOf (client_main linux_x86_64 ["client", "127.0.0.1", "8080"] 0 []
        { socket := ⟨3, 0⟩, setsockopt := ⟨0, 0⟩, inet_pton := ⟨1, 16777343⟩,
          sendto := ⟨13, 0⟩,
          recvs := [{ ret := 3, err := 0, data := [65, 0, 66],
                      src := { sin_family := 2, sin_port := 36895, sin_addr := 16777343 },
                      srclen := 16 }] }).trace
      = cstr "Server: A" ++ [10] ∧
    stdoutOf (client_main linux_x86_64 ["client", "127.0.0.1", "8080"] 0 []
        { socket := ⟨3, 0⟩, setsockopt := ⟨0, 0⟩, inet_pton := ⟨1, 16777343⟩,
          sendto := ⟨13, 0⟩,
          recvs := [{ ret := 3, err := 0, data := [65, 0, 66],
                      src := { sin_family := 2, sin_port := 36895, sin_addr := 16777343 },
                      srclen := 16 }] }).trace
      ≠ cstr "Server: " ++ [65, 0, 66] ++ [10] := by
  decide

/-- C6, amended. Whenever a `recvfrom` of the client's loop succeeds with a
reply `r` of `n` bytes, `0 ≤ n ≤ 65535`, the loop ends there: no further
`recvfrom`, no `sleep`, no failure; the client writes `Server: `, then the
bytes of `r` that come before its first zero byte (all `n` bytes when `r` has
no zero byte, none when `n = 0`), then a newline, and returns 0. -/
theorem client_prints_reply (P : Platform) (fd : Int) (tr : List Event) (errno : Nat)
    (buf : List Nat) (r : RecvRet) (rs : List RecvRet)
    (hret : r.ret = r.data.length) (hlen : r.data.length ≤ 65535) :
    client_recv_loop P fd tr errno buf (r :: rs) =
      { trace := tr ++ [Event.recvfrom fd 65535,
          Event.stdout (cstr "Server: " ++ r.data.takeWhile (fun b => b != 0) ++ [10])],
        outcome := .exited 0 } ∧
    ((∀ b ∈ r.data, b ≠ 0) → r.data.takeWhile (fun b => b != 0) = r.data) ∧
    (r.data = [] →
      client_recv_loop P fd tr errno buf (r :: rs) =
        { trace := tr ++ [Event.recvfrom fd 65535, Event.stdout (cstr "Server: " ++ [10])],
          outcome := .exited 0 }) := by
  have hmain := client_recv_loop_succeeds P fd tr errno buf r rs hret hlen
  refine ⟨hmain, ?_, ?_⟩
  · intro h
    apply List.takeWhile_eq_self_iff.2
    intro b hb
    simpa using h b hb
  · intro h0
    rw [hmain, h0]
    simp

/-- Witness for C6 (amended): an empty reply. -/
theorem client_prints_reply_witness :
    client_recv_loop linux_x86_64 3 [] 0 []
        [{ ret := 0, err := 0, data := [],
           src := { sin_family := 2, sin_port := 36895, sin_addr := 16777343 }, srclen := 16 }] =
      { trace := [Event.recvfrom 3 65535, Event.stdout (cstr "Server: " ++ [10])],
        outcome := .exited 0 } :=
  (client_prints_reply linux_x86_64 3 [] 0 []
    { ret := 0, err := 0, data := [],
      src := { sin_family := 2, sin_port := 36895, sin_addr := 16777343 }, srclen := 16 } []
    (by decide) (by decide)).2.2 rfl

/-! ## The test after `sendto` -/

theorem client_main_send_fails (P : Platform) (a0 ip port : String) (errno0 : Nat)
    (buf0 : List Nat) (env : ClientEnv) (h : ¬ portRefused P port errno0)
    (h1 : env.socket.ret ≠ -1) (h2 : env.setsockopt.ret ≠ -1) (h3 : env.inet_pton.ret = 1)
    (h4 : toSizeT P.longBits env.sendto.ret ≠ 13) :
    client_main P [a0, ip, port] errno0 buf0 env =
      ERROR
        [Event.socket, Event.setsockopt env.socket.ret "SO_RCVTIMEO" [5, 0],
          Event.inet_pton (cstr ip),
          Event.sendto env.socket.ret (cstr "Hello, World!")
            { sin_family := AF_INET,
              sin_port := htons P (toUInt16 (toInt32 (strtol P.longBits (cstr port)).value)),
              sin_addr := env.inet_pton.addr } 16]
        "Failed to send message to server" := by
  unfold portRefused at h
  unfold client_main
  simp only [List.length_cons, List.length_nil, List.getD_cons_succ, List.getD_cons_zero]
  rw [if_neg (by decide), if_neg h]
  simp only [strlen_hello, take_hello]
  rw [if_neg h1, if_neg h2, if_neg (by simp [h3]), if_pos h4]
  rfl

/-- C7. Once the client has reached its `sendto` (valid port, `socket`,
`setsockopt` and `inet_pton` succeeded) and for every `ssize_t` value `r` that
`sendto` returns: the next event is the `recvfrom` of the receive step if and
only if `r = 13`; for every other `r` (so also -1, which the comparison with
the unsigned `strlen(msg)` turns into a huge count) the run is the `sendto`
followed by the `Error:` line and `exit(EXIT_FAILURE)`, nothing else. Likewise
for the server once a turn of its loop has reached `sendto`: it goes back to
`recvfrom` if and only if `r = 19`, and otherwise prints the `Error:` line and
exits with `EXIT_FAILURE`, a nonzero status. -/
theorem send_discrepancy_is_fatal (P : Platform) (a0 ip port : String) (errno0 : Nat)
    (buf0 : List Nat) (env : ClientEnv) (st : ServerState) (it : IterEnv) (ipstr : List Nat)
    (hw : 32 ≤ P.longBits)
    (hport : ¬ portRefused P port errno0) (h1 : env.socket.ret ≠ -1)
    (h2 : env.setsockopt.ret ≠ -1) (h3 : env.inet_pton.ret = 1)
    (hclo : -(2 ^ (P.longBits - 1) : Int) ≤ env.sendto.ret)
    (hchi : env.sendto.ret < 2 ^ (P.longBits - 1))
    (hs1 : it.recv.ret ≠ -1) (hs2 : it.inet_ntop = some ipstr)
    (hslo : -(2 ^ (P.longBits - 1) : Int) ≤ it.sendto.ret)
    (hshi : it.sendto.ret < 2 ^ (P.longBits - 1)) :
    ((∃ rest, afterSendto (client_main P [a0, ip, port] errno0 buf0 env).trace
        = Event.recvfrom env.socket.ret 65535 :: rest) ↔ env.sendto.ret = 13) ∧
    (env.sendto.ret ≠ 13 →
      (client_main P [a0, ip, port] errno0 buf0 env).outcome = .exited EXIT_FAILURE ∧
      afterSendto (client_main P [a0, ip, port] errno0 buf0 env).trace
        = [Event.stdout (cstr "Error: " ++ [34] ++ cstr "Failed to send message to server"
            ++ [34, 10])] ∧
      ((client_main P [a0, ip, port] errno0 buf0 env).trace.filter Event.isSendto).length = 1) ∧
    ((∃ st1, (server_iter P st it).phase = .receiving st1) ↔ it.sendto.ret = 19) ∧
    (it.sendto.ret ≠ 19 →
      (server_iter P st it).phase = .exited EXIT_FAILURE ∧
      afterSendto (server_iter P st it).trace
        = [Event.stdout (cstr "Error: " ++ [34] ++ cstr "Failed to send respose to client"
            ++ [34, 10])] ∧
      ((server_iter P st it).trace.filter Event.isSendto).length = 1) ∧
    exitStatus EXIT_FAILURE ≠ 0 := by
  have hc := toSizeT_eq_iff P.longBits env.sendto.ret 13 hw (by decide) hclo hchi
  have hs := toSizeT_eq_iff P.longBits it.sendto.ret 19 hw (by decide) hslo hshi
  have cfail : env.sendto.ret ≠ 13 →
      (client_main P [a0, ip, port] errno0 buf0 env).outcome = .exited EXIT_FAILURE ∧
      afterSendto (client_main P [a0, ip, port] errno0 buf0 env).trace
        = [Event.stdout (cstr "Error: " ++ [34] ++ cstr "Failed to send message to server"
            ++ [34, 10])] ∧
      ((client_main P [a0, ip, port] errno0 buf0 env).trace.filter Event.isSendto).length
        = 1 := by
    intro hne
    have h4 : toSizeT P.longBits env.sendto.ret ≠ 13 := fun h => hne (hc.1 h)
    rw [client_main_send_fails P a0 ip port errno0 buf0 env hport h1 h2 h3 h4]
    simp [ERROR, afterSendto, Event.isSendto, List.filter]
  have sfail : it.sendto.ret ≠ 19 →
      (server_iter P st it).phase = .exited EXIT_FAILURE ∧
      afterSendto (server_iter P st it).trace
        = [Event.stdout (cstr "Error: " ++ [34] ++ cstr "Failed to send respose to client"
            ++ [34, 10])] ∧
      ((server_iter P st it).trace.filter Event.isSendto).length = 1 := by
    intro hne
    have h4 : toSizeT P.longBits it.sendto.ret ≠ 19 := fun h => hne (hs.1 h)
    rw [server_iter_reaches_send P st it ipstr hs1 hs2, if_pos h4]
    simp [server_ERROR, ERROR, afterSendto, Event.isSendto, List.filter]
  refine ⟨⟨?_, ?_⟩, cfail, ⟨?_, ?_⟩, sfail, by decide⟩
  · rintro ⟨rest, hrest⟩
    by_contra hne
    rw [(cfail hne).2.1] at hrest
    simp at hrest
  · intro h13
    rw [client_main_reaches_loop P a0 ip port errno0 buf0 env hport h1 h2 h3 (hc.2 h13)]
    obtain ⟨rest, hr⟩ := client_recv_loop_trace P env.socket.ret env.recvs
      [Event.socket, Event.setsockopt env.socket.ret "SO_RCVTIMEO" [5, 0],
        Event.inet_pton (cstr ip),
        Event.sendto env.socket.ret (cstr "Hello, World!")
          { sin_family := AF_INET,
            sin_port := htons P (toUInt16 (toInt32 (strtol P.longBits (cstr port)).value)),
            sin_addr := env.inet_pton.addr } 16]
      (if (strtol P.longBits (cstr port)).overflow then P.ERANGE else errno0) buf0
    rw [hr]
    exact ⟨rest, by simp [afterSendto, Event.isSendto]⟩
  · rintro ⟨st1, hst1⟩
    by_contra hne
    rw [(sfail hne).1] at hst1
    simp at hst1
  · intro h19
    rw [server_iter_reaches_send P st it ipstr hs1 hs2, if_neg (by simp [hs.2 h19])]
    exact ⟨_, rfl⟩

/-- Witness for C7: on Linux x86-64 both `sendto` calls return -1. -/
theorem send_discrepancy_is_fatal_witness :
    (client_main linux_x86_64 ["client", "127.0.0.1", "8080"] 0 []
        { socket := ⟨3, 0⟩, setsockopt := ⟨0, 0⟩, inet_pton := ⟨1, 16777343⟩,
          sendto := ⟨-1, 101⟩, recvs := [] }).outcome = .exited EXIT_FAILURE ∧
    (server_iter linux_x86_64 { sockfd := 3, buf := [] }
        { recv := { ret := 2, err := 0, data := [104, 105],
                    src := { sin_family := 2, sin_port := 36895, sin_addr := 16777343 },
                    srclen := 16 },
          inet_ntop := some (cstr "127.0.0.1"), sendto := ⟨-1, 101⟩ }).phase
      = .exited EXIT_FAILURE :=
  have h := send_discrepancy_is_fatal linux_x86_64 "client" "127.0.0.1" "8080" 0 []
    { socket := ⟨3, 0⟩, setsockopt := ⟨0, 0⟩, inet_pton := ⟨1, 16777343⟩,
      sendto := ⟨-1, 101⟩, recvs := [] }
    { sockfd := 3, buf := [] }
    { recv := { ret := 2, err := 0, data := [104, 105],
                src := { sin_family := 2, sin_port := 36895, sin_addr := 16777343 },
                srclen := 16 },
      inet_ntop := some (cstr "127.0.0.1"), sendto := ⟨-1, 101⟩ }
    (cstr "127.0.0.1") (by decide) (by unfold portRefused; decide) (by decide) (by decide)
    (by decide) (by decide) (by decide) (by decide) rfl (by decide) (by decide)
  ⟨(h.2.1 (by decide)).1, (h.2.2.2.1 (by decide)).1⟩

/-! ## The server never ends normally -/

theorem server_setup_sound (P : Platform) (argv : List String) (errno0 : Nat)
    (buf0 : List Nat) (env : ServerEnv)
    (hok : (ServerInput.boot argv errno0 buf0 env).errnoOk) :
    (server_setup P argv errno0 buf0 env).phase.sound := by
  obtain ⟨hs, ho, hb⟩ := hok
  intro code hcode
  unfold server_setup at hcode
  simp only [] at hcode
  split_ifs at hcode <;>
    simp only [server_ERROR, server_try_fail, ServerPhase.exited.injEq, EXIT_FAILURE,
      reduceCtorEq] at hcode <;>
    first
    | omega
    | (rw [← hcode]; exact hs (by assumption))
    | (rw [← hcode]; exact ho (by assumption))
    | (rw [← hcode]; exact hb (by assumption))

theorem server_iter_sound (P : Platform) (st : ServerState) (it : IterEnv)
    (hok : (ServerInput.turn it).errnoOk) : (server_iter P st it).phase.sound := by
  intro code hcode
  by_cases c1 : it.recv.ret = -1
  · unfold server_iter at hcode
    simp only [] at hcode
    rw [if_pos c1] at hcode
    simp only [server_try_fail, ServerPhase.exited.injEq] at hcode
    rw [← hcode]; exact hok c1
  · cases hn : it.inet_ntop with
    | none =>
      unfold server_iter at hcode
      simp only [] at hcode
      rw [if_neg c1, hn] at hcode
      simp only [server_ERROR, ServerPhase.exited.injEq, EXIT_FAILURE] at hcode
      omega
    | some ipstr =>
      rw [server_iter_reaches_send P st it ipstr c1 hn] at hcode
      split_ifs at hcode
      simp only [server_ERROR, ServerPhase.exited.injEq, EXIT_FAILURE] at hcode
      omega

theorem server_step_sound (P : Platform) (ph : ServerPhase) (i : ServerInput)
    (hph : ph.sound) (hi : i.errnoOk) : (server_step P ph i).sound := by
  cases ph with
  | setup =>
    cases i with
    | boot argv errno0 buf0 env => exact server_setup_sound P argv errno0 buf0 env hi
    | turn it => exact hph
  | receiving st =>
    cases i with
    | boot argv errno0 buf0 env => exact hph
    | turn it => exact server_iter_sound P st it hi
  | exited code =>
    cases i with
    | boot argv errno0 buf0 env => exact hph
    | turn it => exact hph

theorem server_foldl_sound (P : Platform) (ins : List ServerInput) :
    ∀ ph : ServerPhase, ph.sound → (∀ i ∈ ins, i.errnoOk) →
      (ins.foldl (server_step P) ph).sound := by
  induction ins with
  | nil => intro ph hph _; exact hph
  | cons i ins ih =>
    intro ph hph hall
    rw [List.foldl_cons]
    exact ih _ (server_step_sound P ph i hph (hall i (by simp)))
      (fun j hj => hall j (by simp [hj]))

/-- C8. The server as a step function over the phases `setup`,
`receiving` and `exited`. A turn of the loop in which `recvfrom`, `inet_ntop`
and `sendto` succeed (`sendto` returning 19) leads from `receiving` back to
`receiving` on the same socket, and so does any number of such turns, each
answered by one reply. Along every sequence of inputs in which each failed
system call leaves an error number between 1 and 255, a server that has ended
has ended with an argument of `exit` between 1 and 255, hence with a nonzero
status: it is never in `exited 0`. -/
theorem server_never_exits_zero (P : Platform) (ins : List ServerInput)
    (hw : 32 ≤ P.longBits) (hins : ∀ i ∈ ins, i.errnoOk) :
    (∀ (st : ServerState) (it : IterEnv), it.succeeds →
      server_step P (.receiving st) (.turn it)
        = .receiving { sockfd := st.sockfd, buf := recv_write st.buf 65535 it.recv }) ∧
    (∀ (st : ServerState) (its : List IterEnv), (∀ it ∈ its, it.succeeds) →
      (∃ st1, (server_loop P st its).phase = .receiving st1 ∧ st1.sockfd = st.sockfd) ∧
      sentPayloads (server_loop P st its).trace
        = its.map (fun _ => cstr "Welcome to CSE5462.")) ∧
    (∀ code, server_reach P ins = .exited code →
      1 ≤ code ∧ code ≤ 255 ∧ exitStatus code ≠ 0) ∧
    server_reach P ins ≠ .exited 0 := by
  have hsound : (server_reach P ins).sound :=
    server_foldl_sound P ins .setup (fun code h => by simp at h) hins
  refine ⟨?_, ?_, ?_, ?_⟩
  · intro st it hit
    obtain ⟨line, h⟩ := server_iter_succeeds P st it hw hit
    show (server_iter P st it).phase = _
    rw [h]
  · intro st its hits
    refine ⟨(server_loop_sendtos P hw its st hits).1, ?_⟩
    induction its generalizing st with
    | nil => rfl
    | cons it its ih =>
      obtain ⟨line, hit⟩ := server_iter_succeeds P st it hw (hits it (by simp))
      have hrec := ih { sockfd := st.sockfd, buf := recv_write st.buf 65535 it.recv }
        (fun i hi => hits i (by simp [hi]))
      unfold server_loop
      rw [hit]
      simp [sentPayloads, hrec]
  · intro code hcode
    obtain ⟨h1, h2⟩ := hsound code hcode
    refine ⟨h1, h2, ?_⟩
    unfold exitStatus
    omega
  · intro h0
    have := hsound 0 h0
    omega

/-- Witness for C8: the server is started on port 8080, serves one datagram,
and its second `recvfrom` fails with error number 4. -/
theorem server_never_exits_zero_witness :
    server_reach linux_x86_64
      [.boot ["server", "127.0.0.1", "8080"] 0 []
          { socket := ⟨3, 0⟩, setsockopt := ⟨0, 0⟩, inet_pton := ⟨1, 16777343⟩, bind := ⟨0, 0⟩ },
        .turn { recv := { ret := 2, err := 0, data := [104, 105],
                          src := { sin_family := 2, sin_port := 36895, sin_addr := 16777343 },
                          srclen := 16 },
                inet_ntop := some (cstr "127.0.0.1"), sendto := ⟨19, 0⟩ },
        .turn { recv := { ret := -1, err := 4, data := [],
                          src := { sin_family := 0, sin_port := 0, sin_addr := 0 },
                          srclen := 16 },
                inet_ntop := none, sendto := ⟨0, 0⟩ }] ≠ .exited 0 :=
  (server_never_exits_zero linux_x86_64 _ (by decide)
    (by
      intro i hi
      simp only [List.mem_cons, List.mem_singleton, List.not_mem_nil, or_false] at hi
      rcases hi with rfl | rfl | rfl
      · exact ⟨by simp [SysRet.errnoOk], by simp [SysRet.errnoOk], by simp [SysRet.errnoOk]⟩
      · intro h; simp at h
      · intro _; exact ⟨by decide, by decide⟩)).2.2.2

/-! ## The exchange end to end -/

/-- C3. For every port `v` from 1 to 65535 given as its decimal numeral and
every address text that `inet_pton` accepts, on both sides: when every call
succeeds, the server receives the datagram the client sent and the client
receives the datagram the server sent in that turn, then the request is the 13
bytes `Hello, World!`, the reply is `Welcome to CSE5462.`, the client writes
exactly `Server: Welcome to CSE5462.` and a newline to standard output, and
returns 0. -/
theorem end_to_end_exchange (P : Platform) (cip sip : String) (v : Nat)
    (cbuf sbuf : List Nat) (cenv : ClientEnv) (senv : ServerEnv) (it : IterEnv)
    (reply : RecvRet) (hw : 32 ≤ P.longBits) (hlo : 1 ≤ v) (hhi : v ≤ 65535)
    (hc1 : cenv.socket.ret ≠ -1) (hc2 : cenv.setsockopt.ret ≠ -1)
    (hc3 : cenv.inet_pton.ret = 1) (hc4 : cenv.sendto.ret = 13)
    (hs1 : senv.socket.ret ≠ -1) (hs2 : senv.setsockopt.ret ≠ -1)
    (hs3 : senv.inet_pton.ret = 1) (hs4 : senv.bind.ret ≠ -1)
    (hit : it.succeeds)
    (hreq : sentPayloads (client_main P ["client", cip, Nat.repr v] 0 cbuf cenv).trace
      = [it.recv.data])
    (hrecvs : cenv.recvs = [reply]) (hrn : reply.ret = reply.data.length)
    (hrep : sentPayloads (server_main P ["server", sip, Nat.repr v] 0 sbuf senv [it]).trace
      = [reply.data]) :
    it.recv.data = cstr "Hello, World!" ∧ it.recv.data.length = 13 ∧
    reply.data = cstr "Welcome to CSE5462." ∧
    stdoutOf (client_main P ["client", cip, Nat.repr v] 0 cbuf cenv).trace
      = cstr "Server: Welcome to CSE5462." ++ [10] ∧
    (client_main P ["client", cip, Nat.repr v] 0 cbuf cenv).outcome = .exited 0 := by
  have hp := port_numeral_passes P v hw hlo hhi
  have hpow : 2 ^ 31 ≤ 2 ^ (P.longBits - 1) := Nat.pow_le_pow_right (by decide) (by omega)
  have hpowi : (2 : Int) ^ 31 ≤ 2 ^ (P.longBits - 1) := by exact_mod_cast hpow
  have h4 : toSizeT P.longBits cenv.sendto.ret = 13 :=
    (toSizeT_eq_iff P.longBits cenv.sendto.ret 13 hw (by decide) (by rw [hc4]; omega)
      (by rw [hc4]; omega)).2 hc4
  -- the server side: the reply is the fixed text
  have hreply : reply.data = cstr "Welcome to CSE5462." := by
    obtain ⟨line, hiter⟩ := server_iter_succeeds P
      { sockfd := senv.socket.ret, buf := sbuf } it hw hit
    have hmain : (server_main P ["server", sip, Nat.repr v] 0 sbuf senv [it]).trace =
        (server_setup P ["server", sip, Nat.repr v] 0 sbuf senv).trace ++
          (server_iter P { sockfd := senv.socket.ret, buf := sbuf } it).trace := by
      unfold server_main
      rw [server_setup_ok P "server" sip (Nat.repr v) 0 sbuf senv hp hs1 hs2 hs3 hs4]
      simp only []
      unfold server_loop
      rw [hiter]
      simp only []
      unfold server_loop
      simp
    rw [hmain, server_setup_ok P "server" sip (Nat.repr v) 0 sbuf senv hp hs1 hs2 hs3 hs4,
      hiter] at hrep
    simp [sentPayloads] at hrep
    exact hrep.symm
  have hlen : reply.data.length ≤ 65535 := by
    rw [hreply]; decide
  have hrun := client_main_reaches_loop P "client" cip (Nat.repr v) 0 cbuf cenv hp hc1 hc2 hc3 h4
  rw [hrecvs, client_recv_loop_succeeds P _ _ _ cbuf reply [] hrn hlen] at hrun
  have hdata : it.recv.data = cstr "Hello, World!" := by
    rw [hrun] at hreq
    simp [sentPayloads] at hreq
    exact hreq.symm
  have htake : (cstr "Welcome to CSE5462.").takeWhile (fun b => b != 0)
      = cstr "Welcome to CSE5462." := by decide
  refine ⟨hdata, by rw [hdata]; decide, hreply, ?_, ?_⟩
  · rw [hrun, hreply, htake]
    simp only [List.cons_append, List.nil_append, stdoutOf, List.append_nil]
    decide
  · rw [hrun]

/-- Witness for C3: server and client on 127.0.0.1, port 8080, Linux x86-64. -/
theorem end_to_end_exchange_witness :
    stdoutOf (client_main linux_x86_64 ["client", "127.0.0.1", Nat.repr 8080] 0 []
        { socket := ⟨3, 0⟩, setsockopt := ⟨0, 0⟩, inet_pton := ⟨1, 16777343⟩,
          sendto := ⟨13, 0⟩,
          recvs := [{ ret := 19, err := 0, data := cstr "Welcome to CSE5462.",
                      src := { sin_family := 2, sin_port := 36895, sin_addr := 16777343 },
                      srclen := 16 }] }).trace
      = cstr "Server: Welcome to CSE5462." ++ [10] :=
  (end_to_end_exchange linux_x86_64 "127.0.0.1" "127.0.0.1" 8080 [] []
    { socket := ⟨3, 0⟩, setsockopt := ⟨0, 0⟩, inet_pton := ⟨1, 16777343⟩,
      sendto := ⟨13, 0⟩,
      recvs := [{ ret := 19, err := 0, data := cstr "Welcome to CSE5462.",
                  src := { sin_family := 2, sin_port := 36895, sin_addr := 16777343 },
                  srclen := 16 }] }
    { socket := ⟨3, 0⟩, setsockopt := ⟨0, 0⟩, inet_pton := ⟨1, 16777343⟩, bind := ⟨0, 0⟩ }
    { recv := { ret := 13, err := 0, data := cstr "Hello, World!",
                src := { sin_family := 2, sin_port := 20480, sin_addr := 16777343 },
                srclen := 16 },
      inet_ntop := some (cstr "127.0.0.1"), sendto := ⟨19, 0⟩ }
    { ret := 19, err := 0, data := cstr "Welcome to CSE5462.",
      src := { sin_family := 2, sin_port := 36895, sin_addr := 16777343 }, srclen := 16 }
    (by decide) (by decide) (by decide) (by decide) (by decide) (by decide) (by decide)
    (by decide) (by decide) (by decide) (by decide)
    ⟨by decide, by simp, rfl⟩ (by decide) rfl (by decide) (by decide)).2.2.2.1

end Lab0
